import Mathlib

/-!
Verification development for the homework-grader repository.

The repository's sources under verification are the frontend TypeScript files
(`frontend/src/types/index.ts`, `frontend/src/lib/api.ts`,
`frontend/src/components/BulkResultsDisplay.tsx`, `frontend/src/app/page.tsx`,
the FileUpload component) together with the README.  The Python backend
(extractor, deterministic checks, LLM grader, aggregator, bulk runner) is not
present in the sources; where a claim is decided by that missing code we model
it from the specification's contracts, and each such definition is marked
`Modelled from the spec:` in its doc comment.

Numeric scores (JavaScript numbers / Python floats) are embedded as rationals;
the operations involved (sums, comparisons, clamping, subtraction, division by
a nonzero count) are exact, so the rational embedding is faithful for the
properties proved here.
-/

namespace HomeworkGrader

/-! ## Data model, from frontend/src/types/index.ts -/

/-- Source: `interface EvidenceItem` (types/index.ts lines 3-8). -/
structure EvidenceItem where
  slide_no : Int
  quote : String
  context : Option String := none
  comment : Option String := none
deriving DecidableEq

/-- Source: `interface DeterministicCheckResult` (types/index.ts lines 10-18). -/
structure DeterministicCheckResult where
  check_name : String
  passed : Bool
  score : ℚ
  max_score : ℚ
  evidence : List EvidenceItem
  missing_items : List String
  details : Option String := none
deriving DecidableEq

/-- Source: `interface DetectedEthicsPrinciple` (types/index.ts lines 20-25). -/
structure DetectedEthicsPrinciple where
  principle : String
  correct_definition : Bool
  scene_match : Bool
  note : Option String := none
deriving DecidableEq

/-- Source: `interface RubricScore` (types/index.ts lines 27-40).  The TS
`Record<string, number>` of `sub_scores` is embedded as an association list. -/
structure RubricScore where
  category : String
  score : ℚ
  max_score : ℚ
  reason : String
  evidence : List EvidenceItem
  sub_scores : Option (List (String × ℚ)) := none
  detected_principles : Option (List DetectedEthicsPrinciple) := none
  consistency_analysis : Option String := none
  found_fields : Option (List String) := none
  missing_fields : Option (List String) := none
  language_errors : Option (List String) := none
deriving DecidableEq

/-- Source: the `'high' | 'medium' | 'low'` union type of
`ImprovementSuggestion.priority` (types/index.ts line 45). -/
inductive Priority where
  | high
  | medium
  | low
deriving DecidableEq

/-- Source: `interface ImprovementSuggestion` (types/index.ts lines 42-46). -/
structure ImprovementSuggestion where
  category : String
  suggestion : String
  priority : Priority
deriving DecidableEq

/-- Source: `interface GradingResult` (types/index.ts lines 48-57). -/
structure GradingResult where
  total_score : ℚ
  rubric_scores : List RubricScore
  missing_items : List String
  improvements : List ImprovementSuggestion
  deterministic_checks : List DeterministicCheckResult
  on_time_submitted : Bool
  grading_notes : Option String := none
  overall_evaluation : Option String := none
deriving DecidableEq

/-- Source: `interface StudentResult` (types/index.ts lines 72-78). -/
structure StudentResult where
  student_name : String
  filename : String
  success : Bool
  result : Option GradingResult := none
  error : Option String := none
deriving DecidableEq

/-- Source: `interface BulkAnalyzeResponse` (types/index.ts lines 80-85), the
bulk report shape. -/
structure BulkAnalyzeResponse where
  total_files : Nat
  successful : Nat
  failed : Nat
  results : List StudentResult
deriving DecidableEq

/-! ## JSON shape of the output boundary

The backend emits the report as JSON whose shape is declared by the frontend
type declarations above (spec section 6 calls this shape a compatibility
contract).  We give the canonical serialization of each declared type: fields
in declaration order, an optional field emitted exactly when its value is
present.  `Json.keys` then observes the emitted field names at one nesting
level. -/

inductive Json where
  | null
  | bool (b : Bool)
  | num (q : ℚ)
  | str (s : String)
  | arr (elems : List Json)
  | obj (fields : List (String × Json))

/-- Field names of a JSON object, in emission order. -/
def Json.keys : Json → List String
  | .obj fields => fields.map Prod.fst
  | _ => []

/-- An optional field: emitted under its name exactly when present. -/
def optField (name : String) : Option Json → List (String × Json)
  | none => []
  | some j => [(name, j)]

def EvidenceItem.toJson (e : EvidenceItem) : Json :=
  .obj ([("slide_no", .num e.slide_no), ("quote", .str e.quote)]
    ++ optField "context" (e.context.map .str)
    ++ optField "comment" (e.comment.map .str))

def DetectedEthicsPrinciple.toJson (p : DetectedEthicsPrinciple) : Json :=
  .obj ([("principle", .str p.principle),
      ("correct_definition", .bool p.correct_definition),
      ("scene_match", .bool p.scene_match)]
    ++ optField "note" (p.note.map .str))

def Priority.toJson : Priority → Json
  | .high => .str "high"
  | .medium => .str "medium"
  | .low => .str "low"

def RubricScore.toJson (r : RubricScore) : Json :=
  .obj ([("category", .str r.category),
      ("score", .num r.score),
      ("max_score", .num r.max_score),
      ("reason", .str r.reason),
      ("evidence", .arr (r.evidence.map EvidenceItem.toJson))]
    ++ optField "sub_scores"
        (r.sub_scores.map fun m => .obj (m.map fun p => (p.1, .num p.2)))
    ++ optField "detected_principles"
        (r.detected_principles.map fun l => .arr (l.map DetectedEthicsPrinciple.toJson))
    ++ optField "consistency_analysis" (r.consistency_analysis.map .str)
    ++ optField "found_fields" (r.found_fields.map fun l => .arr (l.map .str))
    ++ optField "missing_fields" (r.missing_fields.map fun l => .arr (l.map .str))
    ++ optField "language_errors" (r.language_errors.map fun l => .arr (l.map .str)))

def ImprovementSuggestion.toJson (i : ImprovementSuggestion) : Json :=
  .obj [("category", .str i.category),
    ("suggestion", .str i.suggestion),
    ("priority", i.priority.toJson)]

def DeterministicCheckResult.toJson (c : DeterministicCheckResult) : Json :=
  .obj ([("check_name", .str c.check_name),
      ("passed", .bool c.passed),
      ("score", .num c.score),
      ("max_score", .num c.max_score),
      ("evidence", .arr (c.evidence.map EvidenceItem.toJson)),
      ("missing_items", .arr (c.missing_items.map .str))]
    ++ optField "details" (c.details.map .str))

def GradingResult.toJson (g : GradingResult) : Json :=
  .obj ([("total_score", .num g.total_score),
      ("rubric_scores", .arr (g.rubric_scores.map RubricScore.toJson)),
      ("missing_items", .arr (g.missing_items.map .str)),
      ("improvements", .arr (g.improvements.map ImprovementSuggestion.toJson)),
      ("deterministic_checks", .arr (g.deterministic_checks.map DeterministicCheckResult.toJson)),
      ("on_time_submitted", .bool g.on_time_submitted)]
    ++ optField "grading_notes" (g.grading_notes.map .str)
    ++ optField "overall_evaluation" (g.overall_evaluation.map .str))

def StudentResult.toJson (s : StudentResult) : Json :=
  .obj ([("student_name", .str s.student_name),
      ("filename", .str s.filename),
      ("success", .bool s.success)]
    ++ optField "result" (s.result.map GradingResult.toJson)
    ++ optField "error" (s.error.map .str))

def BulkAnalyzeResponse.toJson (b : BulkAnalyzeResponse) : Json :=
  .obj [("total_files", .num b.total_files),
    ("successful", .num b.successful),
    ("failed", .num b.failed),
    ("results", .arr (b.results.map StudentResult.toJson))]

/-! ### Spec-side key lists (section 6 of the spec and the section-3 data
model), written down independently of the serializer so that the claim is a
comparison between the two. -/

/-- Key contributed by an optional field: present exactly when the value is. -/
def optKey (name : String) (present : Bool) : List String :=
  if present then [name] else []

/-- Spec section 6: `{slide_no, quote, context?, comment?}`. -/
def specEvidenceKeys (e : EvidenceItem) : List String :=
  ["slide_no", "quote"] ++ optKey "context" e.context.isSome
    ++ optKey "comment" e.comment.isSome

/-- Spec section 6: `{category, score, max_score, reason, evidence, sub_scores?, ...}`
with the category-specific extensions of the section-3 RubricScore model. -/
def specRubricKeys (r : RubricScore) : List String :=
  ["category", "score", "max_score", "reason", "evidence"]
    ++ optKey "sub_scores" r.sub_scores.isSome
    ++ optKey "detected_principles" r.detected_principles.isSome
    ++ optKey "consistency_analysis" r.consistency_analysis.isSome
    ++ optKey "found_fields" r.found_fields.isSome
    ++ optKey "missing_fields" r.missing_fields.isSome
    ++ optKey "language_errors" r.language_errors.isSome

/-- Spec section 6: `{category, suggestion, priority}`. -/
def specImprovementKeys : List String :=
  ["category", "suggestion", "priority"]

/-- Spec section 6: `{check_name, passed, score, max_score, evidence, missing_items, details?}`. -/
def specCheckKeys (c : DeterministicCheckResult) : List String :=
  ["check_name", "passed", "score", "max_score", "evidence", "missing_items"]
    ++ optKey "details" c.details.isSome

/-- Spec section 6: `{total_score, rubric_scores, missing_items, improvements,
deterministic_checks, on_time_submitted, grading_notes?, overall_evaluation?}`. -/
def specGradingResultKeys (g : GradingResult) : List String :=
  ["total_score", "rubric_scores", "missing_items", "improvements",
      "deterministic_checks", "on_time_submitted"]
    ++ optKey "grading_notes" g.grading_notes.isSome
    ++ optKey "overall_evaluation" g.overall_evaluation.isSome

/-- Spec section 6: `{student_name, filename, success, result?, error?}`. -/
def specStudentKeys (s : StudentResult) : List String :=
  ["student_name", "filename", "success"] ++ optKey "result" s.result.isSome
    ++ optKey "error" s.error.isSome

/-- Spec section 6: `{total_files, successful, failed, results}`. -/
def specBulkKeys : List String :=
  ["total_files", "successful", "failed", "results"]

lemma map_fst_optField {α : Type} (name : String) (o : Option α) (f : α → Json) :
    (optField name (o.map f)).map Prod.fst = optKey name o.isSome := by
  cases o <;> simp [optField, optKey]

/-- C3: every GradingResult and BulkReport object emitted at the output
boundary has exactly the field names and nesting declared in the data model,
at every nesting level: evidence items, rubric scores, improvement
suggestions, deterministic checks, the grading result itself, the per-student
bulk entries and the bulk report.  Optional fields appear exactly when their
value is present. -/
theorem output_shape_matches_declared_model :
    (∀ e : EvidenceItem, e.toJson.keys = specEvidenceKeys e)
    ∧ (∀ r : RubricScore, r.toJson.keys = specRubricKeys r)
    ∧ (∀ i : ImprovementSuggestion, i.toJson.keys = specImprovementKeys)
    ∧ (∀ c : DeterministicCheckResult, c.toJson.keys = specCheckKeys c)
    ∧ (∀ g : GradingResult, g.toJson.keys = specGradingResultKeys g)
    ∧ (∀ s : StudentResult, s.toJson.keys = specStudentKeys s)
    ∧ (∀ b : BulkAnalyzeResponse, b.toJson.keys = specBulkKeys) := by
  refine ⟨fun e => ?_, fun r => ?_, fun i => ?_, fun c => ?_, fun g => ?_,
    fun s => ?_, fun b => ?_⟩
  · simp [EvidenceItem.toJson, Json.keys, specEvidenceKeys, map_fst_optField]
  · simp [RubricScore.toJson, Json.keys, specRubricKeys, map_fst_optField]
  · simp [ImprovementSuggestion.toJson, Json.keys, specImprovementKeys]
  · simp [DeterministicCheckResult.toJson, Json.keys, specCheckKeys, map_fst_optField]
  · simp [GradingResult.toJson, Json.keys, specGradingResultKeys, map_fst_optField]
  · simp [StudentResult.toJson, Json.keys, specStudentKeys, map_fst_optField]
  · simp [BulkAnalyzeResponse.toJson, Json.keys, specBulkKeys]

/-! ## Rubric Grading Orchestrator normalization (spec section 4.3)

The backend `llm_grader` is not in the sources; the clamping step is modelled
from the spec. -/

/-- Modelled from the spec: the Rubric Grading Orchestrator's defensive
normalization (section 4.3, `backend/app/services/llm_grader.py` is not in the
sources): "Must clamp returned scores into [0, max_score] even if the
evaluator returns out-of-range values". -/
def clampScore (raw maxScore : ℚ) : ℚ :=
  max 0 (min maxScore raw)

/-- Modelled from the spec: the orchestrator validates/parses the evaluator's
raw structured response and "normalizes it into rubric score records"
(sections 2 and 4.3); the raw evaluator score passes through `clampScore`,
the other fields are carried over. -/
def normalizeRubric (category : String) (maxScore : ℚ) (rawScore : ℚ)
    (reason : String) (evidence : List EvidenceItem) : RubricScore :=
  { category := category
    score := clampScore rawScore maxScore
    max_score := maxScore
    reason := reason
    evidence := evidence }

/-! ## Aggregator (spec section 4.4)

The backend aggregator is not in the sources; it is modelled from the spec. -/

/-- The fixed rubric weighting table, from the README "Rubric (100 points)"
table and the upload page's criteria box: Ethics Principles 15, Scene
Explanation 50, Template Compliance 15, Visual Design 10; the remaining 10 of
100 is the on-time bonus. -/
def weightTable : List (String × ℚ) :=
  [("Ethics Principles", 15), ("Scene Explanation", 50),
    ("Template Compliance", 15), ("Visual Design", 10)]

/-- Modelled from the spec: the final clamp of section 4.4, "clamped to
[0, 100]". -/
def clampTotal (x : ℚ) : ℚ :=
  max 0 (min 100 x)

/-- Modelled from the spec: priority "derived from the point gap (large gap in
a high-weight category → high priority)" (section 4.4). -/
def priorityOfGap (gap : ℚ) : Priority :=
  if 10 ≤ gap then .high else if 5 ≤ gap then .medium else .low

/-- Modelled from the spec: the Aggregator (section 4.4,
`aggregate(checks, rubricScores, onTime) -> GradingResult`; the backend module
is not in the sources).  Deterministic-check scores are folded into the rubric
categories of the fixed 90-point weighting table (README rubric: Template
Compliance covers "Required fields + page numbers"), so the total is the
rubric-score sum plus the 10-point on-time bonus, clamped to [0, 100].
Missing items are the union of check-level and rubric-level missing items,
de-duplicated with insertion order preserved; improvements are derived from
categories scoring below their maximum, with priority from the point gap. -/
def aggregate (checks : List DeterministicCheckResult)
    (rubricScores : List RubricScore) (onTime : Bool) : GradingResult :=
  { total_score :=
      clampTotal ((rubricScores.map RubricScore.score).sum + if onTime then 10 else 0)
    rubric_scores := rubricScores
    missing_items :=
      ((checks.map DeterministicCheckResult.missing_items).flatten
        ++ (rubricScores.map fun r => r.missing_fields.getD []).flatten).eraseDups
    improvements :=
      (rubricScores.filter fun r => decide (r.score < r.max_score)).map fun r =>
        { category := r.category
          suggestion := "Improve " ++ r.category
          priority := priorityOfGap (r.max_score - r.score) }
    deterministic_checks := checks
    on_time_submitted := onTime }

/-- C2: for every RubricScore returned by the orchestrator, and for arbitrary
raw evaluator output, the returned score satisfies 0 ≤ score ≤ max_score:
out-of-range evaluator scores are clamped to the nearest bound (max_score when
above, 0 when below), in-range scores pass through unchanged. -/
theorem orchestrator_clamps_score (category reason : String)
    (maxScore rawScore : ℚ) (evidence : List EvidenceItem)
    (hmax : 0 ≤ maxScore) :
    0 ≤ (normalizeRubric category maxScore rawScore reason evidence).score
    ∧ (normalizeRubric category maxScore rawScore reason evidence).score
        ≤ (normalizeRubric category maxScore rawScore reason evidence).max_score
    ∧ (maxScore < rawScore →
        (normalizeRubric category maxScore rawScore reason evidence).score = maxScore)
    ∧ (rawScore < 0 →
        (normalizeRubric category maxScore rawScore reason evidence).score = 0)
    ∧ (0 ≤ rawScore → rawScore ≤ maxScore →
        (normalizeRubric category maxScore rawScore reason evidence).score = rawScore) := by
  refine ⟨le_max_left _ _, ?_, fun hlt => ?_, fun hneg => ?_, fun h0 h1 => ?_⟩
  · simp only [normalizeRubric, clampScore]
    exact max_le hmax (min_le_left _ _)
  · simp only [normalizeRubric, clampScore]
    rw [min_eq_left hlt.le, max_eq_right hmax]
  · simp only [normalizeRubric, clampScore]
    rw [min_eq_right (hneg.le.trans hmax), max_eq_left hneg.le]
  · simp only [normalizeRubric, clampScore]
    rw [min_eq_right h1, max_eq_right h0]

/-- Witness for C2: with max_score 15, a raw evaluator score of 30 is clamped
to 15 and a raw score of -5 is clamped to 0 (the spec's stub test). -/
theorem orchestrator_clamps_score_witness :
    (normalizeRubric "Ethics Principles" 15 30 "r" []).score = 15
    ∧ (normalizeRubric "Ethics Principles" 15 (-5) "r" []).score = 0 :=
  ⟨(orchestrator_clamps_score "Ethics Principles" "r" 15 30 [] (by norm_num)).2.2.1
      (by norm_num),
    (orchestrator_clamps_score "Ethics Principles" "r" 15 (-5) [] (by norm_num)).2.2.2.1
      (by norm_num)⟩

/-- C1: for every GradingResult produced by the pipeline — rubric scores
carrying the fixed weighting table (Ethics Principles 15, Scene Explanation
50, Template Compliance 15, Visual Design 10; deterministic checks folded
into the same 90-point pool) with each score within [0, max_score] — the
total score equals the sum of the rubric scores plus 10 if the submission was
on time and 0 otherwise, and lies in [0, 100]. -/
theorem aggregate_total_score (checks : List DeterministicCheckResult)
    (rubricScores : List RubricScore) (onTime : Bool)
    (htable : rubricScores.map (fun r => (r.category, r.max_score)) = weightTable)
    (hrange : ∀ r ∈ rubricScores, 0 ≤ r.score ∧ r.score ≤ r.max_score) :
    (aggregate checks rubricScores onTime).total_score
        = (rubricScores.map RubricScore.score).sum + (if onTime then 10 else 0)
    ∧ 0 ≤ (aggregate checks rubricScores onTime).total_score
    ∧ (aggregate checks rubricScores onTime).total_score ≤ 100 := by
  have hmax : rubricScores.map RubricScore.max_score = [15, 50, 15, 10] := by
    have h := congrArg (List.map Prod.snd) htable
    simpa [List.map_map, Function.comp_def, weightTable] using h
  have hsum_le : (rubricScores.map RubricScore.score).sum ≤ 90 := by
    have h1 : (rubricScores.map RubricScore.score).sum
        ≤ (rubricScores.map RubricScore.max_score).sum :=
      List.sum_le_sum fun r hr => (hrange r hr).2
    rw [hmax] at h1
    simpa using h1.trans_eq (by norm_num)
  have hsum_nonneg : 0 ≤ (rubricScores.map RubricScore.score).sum := by
    apply List.sum_nonneg
    intro x hx
    obtain ⟨r, hr, rfl⟩ := List.mem_map.mp hx
    exact (hrange r hr).1
  have hbonus0 : (0 : ℚ) ≤ if onTime then 10 else 0 := by
    split <;> norm_num
  have hbonus10 : (if onTime then (10 : ℚ) else 0) ≤ 10 := by
    split <;> norm_num
  have hraw0 : 0 ≤ (rubricScores.map RubricScore.score).sum
      + (if onTime then (10 : ℚ) else 0) := by positivity
  have hraw100 : (rubricScores.map RubricScore.score).sum
      + (if onTime then (10 : ℚ) else 0) ≤ 100 := by linarith
  have hclamp : (aggregate checks rubricScores onTime).total_score
      = (rubricScores.map RubricScore.score).sum + (if onTime then 10 else 0) := by
    simp only [aggregate, clampTotal]
    rw [min_eq_right hraw100, max_eq_right hraw0]
  exact ⟨hclamp, hclamp ▸ hraw0, hclamp ▸ hraw100⟩

/-- Concrete rubric-score list following the fixed weighting table, used only
to witness C1. -/
def witnessRubricScores : List RubricScore :=
  [normalizeRubric "Ethics Principles" 15 12 "r1" [],
    normalizeRubric "Scene Explanation" 50 40 "r2" [],
    normalizeRubric "Template Compliance" 15 9 "r3" [],
    normalizeRubric "Visual Design" 10 8 "r4" []]

/-- Witness for C1: an on-time submission scoring 12 + 40 + 9 + 8 = 69 on the
four rubric categories totals 79 and lies within [0, 100]. -/
theorem aggregate_total_score_witness :
    (aggregate [] witnessRubricScores true).total_score
        = (witnessRubricScores.map RubricScore.score).sum + (if true then 10 else 0)
    ∧ 0 ≤ (aggregate [] witnessRubricScores true).total_score
    ∧ (aggregate [] witnessRubricScores true).total_score ≤ 100 :=
  aggregate_total_score [] witnessRubricScores true
    (by simp [witnessRubricScores, weightTable, normalizeRubric])
    (by
      intro r hr
      fin_cases hr <;> constructor <;>
        simp [normalizeRubric, clampScore])

/-! ## Bulk Runner (spec section 4.5)

The backend bulk runner is not in the sources; it is modelled from the spec.
The single-file pipeline is abstracted as a function from filename to either a
GradingResult or an error message, so that per-file fault isolation is
expressed without modelling the extractor and grader internals. -/

/-- Modelled from the spec: the filename stem (the name up to the last dot;
the whole name when there is no dot), the fallback for student-name
derivation in section 4.5. -/
def stem (filename : String) : String :=
  if filename.data.contains '.' then
    String.mk (((filename.data.reverse.dropWhile fun c => c ≠ '.').drop 1).reverse)
  else filename

/-- Modelled from the spec: student-name derivation of section 4.5 — the
expected pattern `firstname_lastname.ext` becomes "firstname lastname"
(section 8: `"ayse_yilmaz.pptx"` → `"ayse yilmaz"`); a stem without
underscores falls through unchanged. -/
def deriveStudentName (filename : String) : String :=
  String.mk ((stem filename).data.map fun c => if c = '_' then ' ' else c)

/-- Modelled from the spec: the per-file step of `runBulk` (section 4.5) — on
pipeline success record a successful StudentResult carrying the
GradingResult, on any failure capture the error message in a failed
StudentResult. -/
def runOne (grade : String → Except String GradingResult)
    (filename : String) : StudentResult :=
  match grade filename with
  | .ok g =>
      { student_name := deriveStudentName filename, filename := filename,
        success := true, result := some g }
  | .error e =>
      { student_name := deriveStudentName filename, filename := filename,
        success := false, error := some e }

/-- Modelled from the spec: `runBulk(files, onTime) -> BulkReport` (section
4.5) — one StudentResult per input file in input order, with the successful
and failed counts taken from the per-item success flags. -/
def runBulk (grade : String → Except String GradingResult)
    (files : List String) : BulkAnalyzeResponse :=
  let results := files.map (runOne grade)
  { total_files := results.length
    successful := (results.filter fun s => s.success).length
    failed := (results.filter fun s => !s.success).length
    results := results }

/-- C4: for every BulkReport returned by runBulk, the successful count equals
the number of result entries whose success flag is true, the failed count
equals the number whose success flag is false, total_files equals successful
plus failed and equals the length of results, and the results are in input
order (the entry filenames are exactly the input file list, in order). -/
theorem runBulk_counts_and_order (grade : String → Except String GradingResult)
    (files : List String) :
    (runBulk grade files).successful
        = ((runBulk grade files).results.filter fun s => s.success).length
    ∧ (runBulk grade files).failed
        = ((runBulk grade files).results.filter fun s => !s.success).length
    ∧ (runBulk grade files).total_files
        = (runBulk grade files).successful + (runBulk grade files).failed
    ∧ (runBulk grade files).total_files = (runBulk grade files).results.length
    ∧ (runBulk grade files).results.map StudentResult.filename = files := by
  refine ⟨rfl, rfl, ?_, rfl, ?_⟩
  · simpa [runBulk] using
      List.length_eq_length_filter_add (l := files.map (runOne grade))
        (fun s => s.success)
  · simp only [runBulk, List.map_map]
    have h : (StudentResult.filename ∘ runOne grade) = fun fn => fn := by
      funext fn
      simp only [Function.comp_apply, runOne]
      cases grade fn <;> rfl
    simp [h]

/-- C5: for every StudentResult in a BulkReport produced by runBulk, the
result field is present exactly when the success flag is true and the error
field is present exactly when it is false, so the bulk display's dereference
of `result` on successful entries never hits an absent value. -/
theorem runBulk_result_present_iff_success
    (grade : String → Except String GradingResult) (files : List String)
    (s : StudentResult) (hs : s ∈ (runBulk grade files).results) :
    (s.result.isSome = true ↔ s.success = true)
    ∧ (s.error.isSome = true ↔ s.success = false) := by
  simp only [runBulk, List.mem_map] at hs
  obtain ⟨fn, -, rfl⟩ := hs
  simp only [runOne]
  cases grade fn <;> simp

/-- Pipeline stub used only to witness C5: every file fails with a captured
message. -/
def witnessGrade : String → Except String GradingResult :=
  fun _ => .error "boom"

/-- Witness for C5: in the bulk report for the single file "a" under the
always-failing pipeline stub, the recorded entry has an absent result and a
present error, matching its false success flag. -/
theorem runBulk_result_present_iff_success_witness :
    let sr : StudentResult :=
      { student_name := "a", filename := "a", success := false,
        error := some "boom" }
    (sr.result.isSome = true ↔ sr.success = true)
    ∧ (sr.error.isSome = true ↔ sr.success = false) :=
  runBulk_result_present_iff_success witnessGrade ["a"] _
    (by
      simp only [runBulk, List.map_cons, List.map_nil]
      exact List.mem_singleton_self _)

/-! ## Upload validation, from the FileUpload component (src/unnamed/part_000)

A browser File is embedded as its name and byte size.  The JavaScript test
`file.name.toLowerCase().endsWith('.pptx')` is embedded over the character
list: lowercase every character, then compare the final five characters with
".pptx". -/

structure JsFile where
  name : String
  size : Nat
deriving DecidableEq

/-- Source: the acceptance test `file.name.toLowerCase().endsWith('.pptx')`
(part_000 lines 41, 66, 90). -/
def hasPptxExt (f : JsFile) : Bool :=
  decide ((f.name.data.map Char.toLower).reverse.take 5 = ".pptx".data.reverse)

/-- Source: `validateFiles` (part_000 lines 37-46) — iterate over the file
list and keep exactly the files passing the extension test, in order. -/
def validateFiles : List JsFile → List JsFile
  | [] => []
  | f :: fs =>
      if hasPptxExt f then f :: validateFiles fs else validateFiles fs

/-- Source: the single-file branch of `handleDrop` (part_000 lines 64-71) —
the first dropped file is passed to the pipeline (`onFileSelect`) exactly when
it passes the extension test; otherwise only an alert is shown and nothing is
passed on. -/
def handleDropSingle (f : JsFile) : Option JsFile :=
  if hasPptxExt f then some f else none

/-- A 16MB file with a valid .pptx name, used only to refute C6's size
clause. -/
def oversizedFile : JsFile :=
  { name := "sunum.pptx", size := 16 * 1024 * 1024 }

/-- Counterexample to C6 as stated: a .pptx file of 16MB — strictly larger
than the 15MB limit — is accepted by `validateFiles`, so the upload
component's validation does not reject files exceeding 15MB. -/
theorem validateFiles_accepts_oversized_file :
    validateFiles [oversizedFile] = [oversizedFile]
    ∧ 15 * 1024 * 1024 < oversizedFile.size := by
  constructor
  · rfl
  · decide

/-- C6 (amended): the upload component's validation filters by extension
only — for every file list, exactly those files whose name ends with '.pptx'
case-insensitively are accepted (in order, irrespective of size), and a
single-file selection whose name does not end with '.pptx' is not passed to
the pipeline. -/
theorem upload_validation_filters_by_extension (files : List JsFile) (f : JsFile) :
    validateFiles files = files.filter hasPptxExt
    ∧ (f ∈ validateFiles files ↔ f ∈ files ∧ hasPptxExt f = true)
    ∧ (handleDropSingle f).isSome = hasPptxExt f := by
  refine ⟨?_, ?_, ?_⟩
  · induction files with
    | nil => rfl
    | cons g gs ih =>
        by_cases hg : hasPptxExt g <;>
          simp [validateFiles, List.filter_cons, hg, ih]
  · induction files with
    | nil => simp [validateFiles]
    | cons g gs ih =>
        by_cases hg : hasPptxExt g
        · simp only [validateFiles, if_pos hg, List.mem_cons, ih]
          constructor
          · rintro (rfl | ⟨hmem, hf⟩)
            · exact ⟨Or.inl rfl, hg⟩
            · exact ⟨Or.inr hmem, hf⟩
          · rintro ⟨rfl | hmem, hf⟩
            · exact Or.inl rfl
            · exact Or.inr ⟨hmem, hf⟩
        · simp only [validateFiles, if_neg hg, List.mem_cons, ih]
          constructor
          · rintro ⟨hmem, hf⟩
            exact ⟨Or.inr hmem, hf⟩
          · rintro ⟨rfl | hmem, hf⟩
            · exact absurd hf hg
            · exact ⟨hmem, hf⟩
  · by_cases hf : hasPptxExt f <;> simp [handleDropSingle, hf]

/-- Witness for C6 (amended): in the two-file selection of a 16MB .pptx file
and a .txt file, exactly the .pptx file is kept, and the .txt file dropped as
a single selection is not passed to the pipeline. -/
theorem upload_validation_filters_by_extension_witness :
    validateFiles [oversizedFile, { name := "notlar.txt", size := 100 }]
        = List.filter hasPptxExt [oversizedFile, { name := "notlar.txt", size := 100 }]
    ∧ ({ name := "notlar.txt", size := 100 } ∈
          validateFiles [oversizedFile, { name := "notlar.txt", size := 100 }]
        ↔ ({ name := "notlar.txt", size := 100 } : JsFile) ∈
              [oversizedFile, { name := "notlar.txt", size := 100 }]
          ∧ hasPptxExt { name := "notlar.txt", size := 100 } = true)
    ∧ (handleDropSingle { name := "notlar.txt", size := 100 }).isSome
        = hasPptxExt { name := "notlar.txt", size := 100 } :=
  upload_validation_filters_by_extension
    [oversizedFile, { name := "notlar.txt", size := 100 }]
    { name := "notlar.txt", size := 100 }

/-! ## Bulk results display, from BulkResultsDisplay.tsx

`Array.prototype.sort` on a copy of `result.results` is modelled as a stable
comparison sort (insertion sort) driven by the source comparator; the
`student.result!.total_score` dereference is modelled as `forcedTotalScore`,
which reads the carried GradingResult (and defaults to 0 on an absent one,
where the JavaScript dereference would fault). -/

/-- Source: the `r.result!.total_score` dereference (BulkResultsDisplay.tsx
lines 123 and 131). -/
def forcedTotalScore (s : StudentResult) : ℚ :=
  match s.result with
  | some g => g.total_score
  | none => 0

/-- Source: the comparator of `sortedResults` (BulkResultsDisplay.tsx lines
128-132): failed entries compare after anything, otherwise descending by
total score. -/
def bulkCmp (a b : StudentResult) : ℚ :=
  if a.success = false then 1
  else if b.success = false then -1
  else forcedTotalScore b - forcedTotalScore a

/-- The "a sorts no later than b" relation induced by the comparator. -/
def bulkLe (a b : StudentResult) : Prop :=
  bulkCmp a b ≤ 0

instance : DecidableRel bulkLe :=
  fun a b => inferInstanceAs (Decidable (bulkCmp a b ≤ 0))

/-- Source: `sortedResults` (BulkResultsDisplay.tsx lines 127-132), the list
the display renders. -/
def sortedResults (rep : BulkAnalyzeResponse) : List StudentResult :=
  rep.results.insertionSort bulkLe

/-- The ordering C7 asserts between an earlier entry `a` and a later entry
`b` of the rendered list: a successful later entry forces the earlier entry
to be successful with a score at least as large. -/
def displayOrder (a b : StudentResult) : Prop :=
  b.success = true → a.success = true ∧ forcedTotalScore b ≤ forcedTotalScore a

lemma displayOrder_of_bulkLe {a b : StudentResult} (h : bulkLe a b) :
    displayOrder a b := by
  intro hb
  unfold bulkLe bulkCmp at h
  by_cases ha : a.success = false
  · rw [if_pos ha] at h
    norm_num at h
  · rw [if_neg ha, hb] at h
    simp only [Bool.true_eq_false, if_false] at h
    exact ⟨eq_true_of_ne_false ha, by linarith⟩

lemma displayOrder_of_not_bulkLe {a b : StudentResult} (h : ¬ bulkLe a b) :
    displayOrder b a := by
  intro ha
  unfold bulkLe bulkCmp at h
  rw [ha] at h
  simp only [Bool.true_eq_false, if_false] at h
  by_cases hb : b.success = false
  · rw [if_pos hb] at h
    norm_num at h
  · rw [if_neg hb] at h
    exact ⟨eq_true_of_ne_false hb, by linarith⟩

lemma displayOrder_trans {a b c : StudentResult} (hab : displayOrder a b)
    (hbc : displayOrder b c) : displayOrder a c := by
  intro hc
  obtain ⟨hb, hcb⟩ := hbc hc
  obtain ⟨ha, hba⟩ := hab hb
  exact ⟨ha, hcb.trans hba⟩

lemma pairwise_displayOrder_orderedInsert (a : StudentResult) :
    ∀ l : List StudentResult, l.Pairwise displayOrder →
      (l.orderedInsert bulkLe a).Pairwise displayOrder
  | [], _ => by simp
  | b :: l, h => by
    rcases List.pairwise_cons.mp h with ⟨hb, hl⟩
    by_cases hab : bulkLe a b
    · rw [List.orderedInsert, if_pos hab]
      refine List.pairwise_cons.mpr ⟨?_, h⟩
      intro x hx
      rcases List.mem_cons.mp hx with rfl | hx
      · exact displayOrder_of_bulkLe hab
      · exact displayOrder_trans (displayOrder_of_bulkLe hab) (hb x hx)
    · rw [List.orderedInsert, if_neg hab]
      refine List.pairwise_cons.mpr
        ⟨?_, pairwise_displayOrder_orderedInsert a l hl⟩
      intro x hx
      rcases (List.mem_orderedInsert bulkLe).mp hx with rfl | hx
      · exact displayOrder_of_not_bulkLe hab
      · exact hb x hx

lemma pairwise_displayOrder_insertionSort :
    ∀ l : List StudentResult, (l.insertionSort bulkLe).Pairwise displayOrder
  | [] => List.Pairwise.nil
  | a :: l =>
      pairwise_displayOrder_orderedInsert a _
        (pairwise_displayOrder_insertionSort l)

/-- C7: the list the bulk results display renders is a permutation of the
report's results in which every successful entry precedes every failed one,
and the successful entries appear in non-increasing order of their result's
total score (read through the display's `result!` dereference). -/
theorem sortedResults_permutation_and_order (rep : BulkAnalyzeResponse) :
    (sortedResults rep).Perm rep.results
    ∧ (sortedResults rep).Pairwise
        (fun a b => b.success = true → a.success = true)
    ∧ (sortedResults rep).Pairwise
        (fun a b => a.success = true → b.success = true →
          forcedTotalScore b ≤ forcedTotalScore a) := by
  have hp := pairwise_displayOrder_insertionSort rep.results
  refine ⟨List.perm_insertionSort bulkLe rep.results, ?_, ?_⟩
  · exact hp.imp fun h hb => (h hb).1
  · exact hp.imp fun h _ hb => (h hb).2

/-! ## API client error handling, from frontend/src/lib/api.ts

A backend HTTP response is embedded as its ok flag, status code, the `detail`
field of its parsed error body, and its successful payload.  The source's
`await response.json().catch(() => ({}))` yields an object without a `detail`
field both when the body has none and when it fails to parse, so both cases
collapse to `detail = none`.  The `errorData.detail || defaultMsg` expression
uses JavaScript truthiness: an empty string is falsy and falls back to the
default. -/

structure ApiResponse (α : Type) where
  ok : Bool
  status : Nat
  detail : Option String := none
  payload : α

/-- Source: `class APIError` (api.ts lines 5-14).  The third constructor
argument `JSON.stringify(errorData)` is abstracted to the detail field of the
error body. -/
structure APIError where
  message : String
  status : Nat
  details : Option String := none
deriving DecidableEq

/-- Source: the JavaScript expression `errorData.detail || defaultMsg`: the
detail string when present and truthy (non-empty), the default otherwise. -/
def jsOrDefault (detail : Option String) (defaultMsg : String) : String :=
  match detail with
  | some s => if s = "" then defaultMsg else s
  | none => defaultMsg

/-- Source: `analyzePresentation` (api.ts lines 24-47) — on a non-ok response
throw an APIError built from the error body and the HTTP status, otherwise
return the parsed payload. -/
def analyzePresentation {α : Type} (r : ApiResponse α) : Except APIError α :=
  if r.ok then .ok r.payload
  else .error
    { message := jsOrDefault r.detail "Analysis failed"
      status := r.status
      details := r.detail }

/-- Source: `analyzeBulk` (api.ts lines 87-112). -/
def analyzeBulk {α : Type} (r : ApiResponse α) : Except APIError α :=
  if r.ok then .ok r.payload
  else .error
    { message := jsOrDefault r.detail "Bulk analysis failed"
      status := r.status
      details := r.detail }

/-- Source: `exportExcel` (api.ts lines 114-139). -/
def exportExcel {α : Type} (r : ApiResponse α) : Except APIError α :=
  if r.ok then .ok r.payload
  else .error
    { message := jsOrDefault r.detail "Excel export failed"
      status := r.status
      details := r.detail }

/-- Counterexample to C8 as stated: a non-ok response whose error body carries
a present but empty `detail` field.  The claim says the thrown message is the
server-supplied detail whenever it is present; the code's `||` fallback
instead substitutes the fixed default, because the empty string is falsy. -/
theorem analyzePresentation_empty_detail_uses_default :
    analyzePresentation (α := Unit)
        { ok := false, status := 500, detail := some "", payload := () }
      = .error { message := "Analysis failed", status := 500, details := some "" }
    ∧ ("Analysis failed" : String) ≠ "" := by
  constructor
  · rfl
  · decide

/-- C8 (amended): for every non-ok backend response, each API client call
throws an APIError whose status equals the response's HTTP status and whose
message is the server-supplied detail when that detail is present and
non-empty, and the call's fixed human-readable default when the detail is
absent or empty; each call returns its parsed payload exactly when the
response is ok. -/
theorem api_client_error_handling {α β γ : Type} (r₁ : ApiResponse α)
    (r₂ : ApiResponse β) (r₃ : ApiResponse γ) :
    (r₁.ok = true → analyzePresentation r₁ = .ok r₁.payload)
    ∧ (r₁.ok = false → ∃ e : APIError, analyzePresentation r₁ = .error e
        ∧ e.status = r₁.status
        ∧ (∀ s : String, r₁.detail = some s → s ≠ "" → e.message = s)
        ∧ ((r₁.detail = none ∨ r₁.detail = some "") →
            e.message = "Analysis failed"))
    ∧ (r₂.ok = true → analyzeBulk r₂ = .ok r₂.payload)
    ∧ (r₂.ok = false → ∃ e : APIError, analyzeBulk r₂ = .error e
        ∧ e.status = r₂.status
        ∧ (∀ s : String, r₂.detail = some s → s ≠ "" → e.message = s)
        ∧ ((r₂.detail = none ∨ r₂.detail = some "") →
            e.message = "Bulk analysis failed"))
    ∧ (r₃.ok = true → exportExcel r₃ = .ok r₃.payload)
    ∧ (r₃.ok = false → ∃ e : APIError, exportExcel r₃ = .error e
        ∧ e.status = r₃.status
        ∧ (∀ s : String, r₃.detail = some s → s ≠ "" → e.message = s)
        ∧ ((r₃.detail = none ∨ r₃.detail = some "") →
            e.message = "Excel export failed")) := by
  refine ⟨fun h => by simp [analyzePresentation, h], fun h => ?_,
    fun h => by simp [analyzeBulk, h], fun h => ?_,
    fun h => by simp [exportExcel, h], fun h => ?_⟩
  · refine ⟨{ message := jsOrDefault r₁.detail "Analysis failed",
                status := r₁.status, details := r₁.detail },
      by simp [analyzePresentation, h], rfl, ?_, ?_⟩
    · intro s hs hne
      simp [jsOrDefault, hs, hne]
    · rintro (hd | hd) <;> simp [jsOrDefault, hd]
  · refine ⟨{ message := jsOrDefault r₂.detail "Bulk analysis failed",
                status := r₂.status, details := r₂.detail },
      by simp [analyzeBulk, h], rfl, ?_, ?_⟩
    · intro s hs hne
      simp [jsOrDefault, hs, hne]
    · rintro (hd | hd) <;> simp [jsOrDefault, hd]
  · refine ⟨{ message := jsOrDefault r₃.detail "Excel export failed",
                status := r₃.status, details := r₃.detail },
      by simp [exportExcel, h], rfl, ?_, ?_⟩
    · intro s hs hne
      simp [jsOrDefault, hs, hne]
    · rintro (hd | hd) <;> simp [jsOrDefault, hd]

/-- Witness for C8 (amended): a 404 bulk response with detail "not found"
throws an APIError with status 404 and that exact message, and an ok export
response returns its payload. -/
theorem api_client_error_handling_witness :
    (∃ e : APIError,
        analyzeBulk (α := Unit)
            { ok := false, status := 404, detail := some "not found", payload := () }
          = .error e
        ∧ e.status = 404 ∧ e.message = "not found")
    ∧ exportExcel (α := Unit) { ok := true, status := 200, payload := () }
        = .ok () := by
  have h := api_client_error_handling
    (α := Unit) (β := Unit) (γ := Unit)
    { ok := true, status := 200, payload := () }
    { ok := false, status := 404, detail := some "not found", payload := () }
    { ok := true, status := 200, payload := () }
  obtain ⟨e, he, hst, hmsg, -⟩ := h.2.2.2.1 rfl
  exact ⟨⟨e, he, hst, hmsg "not found" rfl (by decide)⟩, h.2.2.2.2.1 rfl⟩

/-! ## Average score of the bulk display (BulkResultsDisplay.tsx lines
119-125) -/

/-- Source: `successfulResults` — the filter `r.success && r.result`
(presence of the result is part of the JavaScript truthiness test). -/
def successfulResults (rep : BulkAnalyzeResponse) : List StudentResult :=
  rep.results.filter fun r => r.success && r.result.isSome

/-- Source: `avgScore` — the reduce over `successfulResults` divided by its
length, guarded so the division only happens when the length is positive. -/
def avgScore (rep : BulkAnalyzeResponse) : ℚ :=
  if 0 < (successfulResults rep).length then
    ((successfulResults rep).foldl (fun acc r => acc + forcedTotalScore r) 0)
      / ((successfulResults rep).length : ℚ)
  else 0

lemma foldl_add_forcedTotalScore (l : List StudentResult) (init : ℚ) :
    l.foldl (fun acc r => acc + forcedTotalScore r) init
      = init + (l.map forcedTotalScore).sum := by
  induction l generalizing init with
  | nil => simp
  | cons a l ih => simp [List.foldl_cons, ih, add_assoc]

/-- C9: for every BulkReport (whose entries carry a result exactly when
successful), the average score the bulk display computes equals the sum of
total_score over the successful entries divided by the number of successful
entries, and equals 0 when no entry is successful — the guarded division is
never taken with a zero divisor. -/
theorem avgScore_mean_of_successful (rep : BulkAnalyzeResponse)
    (hwf : ∀ s ∈ rep.results, s.result.isSome = s.success) :
    avgScore rep
        = (if ((rep.results.filter fun r => r.success).length : ℚ) = 0 then 0
          else ((rep.results.filter fun r => r.success).map forcedTotalScore).sum
            / ((rep.results.filter fun r => r.success).length : ℚ))
    ∧ ((rep.results.filter fun r => r.success).length = 0 → avgScore rep = 0) := by
  have hfilter : successfulResults rep = rep.results.filter fun r => r.success := by
    unfold successfulResults
    apply List.filter_congr
    intro s hs
    rw [hwf s hs]
    cases s.success <;> rfl
  have hmain : avgScore rep
      = (if ((rep.results.filter fun r => r.success).length : ℚ) = 0 then 0
        else ((rep.results.filter fun r => r.success).map forcedTotalScore).sum
          / ((rep.results.filter fun r => r.success).length : ℚ)) := by
    unfold avgScore
    rw [hfilter, foldl_add_forcedTotalScore, zero_add]
    rcases Nat.eq_zero_or_pos (rep.results.filter fun r => r.success).length with h0 | hpos
    · rw [if_neg (by omega), if_pos (by exact_mod_cast h0)]
    · rw [if_pos hpos, if_neg (by exact_mod_cast hpos.ne')]
  refine ⟨hmain, fun h0 => ?_⟩
  rw [hmain, if_pos (by exact_mod_cast h0)]

/-- Witness for C9: on an empty bulk report (no entries at all, hence no
successful ones) the computed average is 0. -/
theorem avgScore_mean_of_successful_witness :
    avgScore { total_files := 0, successful := 0, failed := 0, results := [] }
        = (if ((([] : List StudentResult).filter fun r => r.success).length : ℚ) = 0
            then 0
          else ((([] : List StudentResult).filter fun r => r.success).map
              forcedTotalScore).sum
            / ((([] : List StudentResult).filter fun r => r.success).length : ℚ))
    ∧ ((([] : List StudentResult).filter fun r => r.success).length = 0 →
        avgScore { total_files := 0, successful := 0, failed := 0, results := [] } = 0) :=
  avgScore_mean_of_successful
    { total_files := 0, successful := 0, failed := 0, results := [] }
    (by intro s hs; cases hs)

/-! ## Score color classification, from frontend/src/lib/api.ts lines 49-63 -/

/-- Source: `getScoreColor` (api.ts lines 49-55). -/
def getScoreColor (score maxScore : ℚ) : String :=
  let percentage := score / maxScore * 100
  if 80 ≤ percentage then "text-green-600"
  else if 60 ≤ percentage then "text-yellow-600"
  else if 40 ≤ percentage then "text-orange-500"
  else "text-red-600"

/-- Source: `getScoreBgColor` (api.ts lines 57-63). -/
def getScoreBgColor (score maxScore : ℚ) : String :=
  let percentage := score / maxScore * 100
  if 80 ≤ percentage then "bg-green-100"
  else if 60 ≤ percentage then "bg-yellow-100"
  else if 40 ≤ percentage then "bg-orange-100"
  else "bg-red-100"

/-- C10: for every score and positive maxScore, the text-color and
background-color classifiers agree band by band — green text exactly with
green background, and likewise for yellow, orange and red — because both
classify the same percentage by the thresholds 80, 60, 40. -/
theorem score_colors_agree (score maxScore : ℚ) (_hpos : 0 < maxScore) :
    (getScoreColor score maxScore = "text-green-600"
      ↔ getScoreBgColor score maxScore = "bg-green-100")
    ∧ (getScoreColor score maxScore = "text-yellow-600"
      ↔ getScoreBgColor score maxScore = "bg-yellow-100")
    ∧ (getScoreColor score maxScore = "text-orange-500"
      ↔ getScoreBgColor score maxScore = "bg-orange-100")
    ∧ (getScoreColor score maxScore = "text-red-600"
      ↔ getScoreBgColor score maxScore = "bg-red-100") := by
  simp only [getScoreColor, getScoreBgColor]
  split_ifs <;> refine ⟨⟨?_, ?_⟩, ⟨?_, ?_⟩, ⟨?_, ?_⟩, ⟨?_, ?_⟩⟩ <;>
    first
      | (intro _; rfl)
      | (intro h; exact absurd h (by decide))

/-- Witness for C10: at score 85 of max 100 both classifiers land in the
green band. -/
theorem score_colors_agree_witness :
    (0 : ℚ) < 100
    ∧ ((getScoreColor 85 100 = "text-green-600"
        ↔ getScoreBgColor 85 100 = "bg-green-100")
      ∧ (getScoreColor 85 100 = "text-yellow-600"
        ↔ getScoreBgColor 85 100 = "bg-yellow-100")
      ∧ (getScoreColor 85 100 = "text-orange-500"
        ↔ getScoreBgColor 85 100 = "bg-orange-100")
      ∧ (getScoreColor 85 100 = "text-red-600"
        ↔ getScoreBgColor 85 100 = "bg-red-100")) :=
  ⟨by norm_num, score_colors_agree 85 100 (by norm_num)⟩

end HomeworkGrader
